import Mathlib

/-!
Verification of the `sbox` rootless container runtime library.

Each definition below is a shallow embedding of a function of the Rust
source; the doc comment of every definition names the source file and
line range it embeds.  Bytes are modelled as natural numbers below 256,
byte streams as `List Nat`, and `usize` values as naturals encoded
little-endian in 8 bytes.  Effectful operations (filesystem calls,
`waitpid`) are modelled by passing the outcome of every underlying
system call explicitly, with the state transition of each call made
explicit, so that control flow and error propagation of the Rust code
are reproduced exactly.
-/

namespace Sbox

/-! ## Little-endian byte encoding (`usize::to_le_bytes` / `from_le_bytes`) -/

/-- `usize::to_le_bytes` restricted to `n` output bytes: little-endian base-256
digits of `x`.  For `n = 8` this is the encoding used by
`write_result` (src/syscall.rs line 149). -/
def leBytes : Nat → Nat → List Nat
  | 0, _ => []
  | n + 1, x => x % 256 :: leBytes n (x / 256)

/-- `usize::from_le_bytes`: recombine little-endian base-256 digits
(src/syscall.rs line 134). -/
def leDecode : List Nat → Nat
  | [] => 0
  | b :: rest => b + 256 * leDecode rest

theorem leBytes_length (n x : Nat) : (leBytes n x).length = n := by
  induction n generalizing x with
  | zero => rfl
  | succ n ih => simp [leBytes, ih]

theorem leDecode_leBytes (n x : Nat) : leDecode (leBytes n x) = x % 256 ^ n := by
  induction n generalizing x with
  | zero => simp [leBytes, leDecode, Nat.mod_one]
  | succ n ih =>
      simp only [leBytes, leDecode, ih]
      rw [pow_succ', Nat.mod_mul]

/-! ## UTF-8 validity (`String::from_utf8`, src/syscall.rs line 137)

`String::from_utf8` succeeds exactly on well-formed UTF-8 byte
sequences and returns a string whose byte representation is the input
itself.  We therefore model strings crossing the pipe by their byte
lists and `String::from_utf8` by the standard UTF-8 validity check. -/

/-- A UTF-8 continuation byte: `0x80 ≤ b ≤ 0xBF`. -/
def utf8Cont (b : Nat) : Bool := 0x80 ≤ b && b ≤ 0xBF

/-- Well-formed UTF-8 (the check performed by Rust's `String::from_utf8`). -/
def utf8Valid : List Nat → Bool
  | [] => true
  | b0 :: rest =>
    if b0 < 0x80 then utf8Valid rest
    else if 0xC2 ≤ b0 && b0 ≤ 0xDF then
      match rest with
      | b1 :: rest2 => utf8Cont b1 && utf8Valid rest2
      | [] => false
    else if b0 = 0xE0 then
      match rest with
      | b1 :: b2 :: rest3 => (0xA0 ≤ b1 && b1 ≤ 0xBF) && utf8Cont b2 && utf8Valid rest3
      | _ => false
    else if (0xE1 ≤ b0 && b0 ≤ 0xEC) || b0 = 0xEE || b0 = 0xEF then
      match rest with
      | b1 :: b2 :: rest3 => utf8Cont b1 && utf8Cont b2 && utf8Valid rest3
      | _ => false
    else if b0 = 0xED then
      match rest with
      | b1 :: b2 :: rest3 => (0x80 ≤ b1 && b1 ≤ 0x9F) && utf8Cont b2 && utf8Valid rest3
      | _ => false
    else if b0 = 0xF0 then
      match rest with
      | b1 :: b2 :: b3 :: rest4 =>
          (0x90 ≤ b1 && b1 ≤ 0xBF) && utf8Cont b2 && utf8Cont b3 && utf8Valid rest4
      | _ => false
    else if 0xF1 ≤ b0 && b0 ≤ 0xF3 then
      match rest with
      | b1 :: b2 :: b3 :: rest4 =>
          utf8Cont b1 && utf8Cont b2 && utf8Cont b3 && utf8Valid rest4
      | _ => false
    else if b0 = 0xF4 then
      match rest with
      | b1 :: b2 :: b3 :: rest4 =>
          (0x80 ≤ b1 && b1 ≤ 0x8F) && utf8Cont b2 && utf8Cont b3 && utf8Valid rest4
      | _ => false
    else false

/-! ## The framed result protocol (src/syscall.rs lines 126-153) -/

/-- Outcome of `read_result`.  `Ok(Ok(()))` is `.ok`, `Ok(Err(e))` is
`.err` carrying the UTF-8 bytes of the error message, an `Err` from
`read_exact`/`String::from_utf8` is `.ioFailure`, and the
`unreachable!` arm is `.panicked`. -/
inductive PipeResult where
  | ok : PipeResult
  | err (msg : List Nat) : PipeResult
  | ioFailure : PipeResult
  | panicked : PipeResult
deriving DecidableEq

/-- `write_result` (src/syscall.rs lines 143-153): tag byte `0` for
`Ok(())`; for `Err(e)` tag byte `1`, then the 8 little-endian bytes of
the message length, then the message bytes (`e.to_string()`). -/
def write_result : Except (List Nat) Unit → List Nat
  | .ok _ => [0]
  | .error msg => 1 :: (leBytes 8 msg.length ++ msg)

/-- `read_result` (src/syscall.rs lines 126-141): read one tag byte;
`0` succeeds, `1` reads an 8-byte little-endian length, that many
message bytes and decodes them as UTF-8, anything else hits
`unreachable!`.  A short read is an `Err` from `read_exact`. -/
def read_result (input : List Nat) : PipeResult :=
  match input with
  | [] => .ioFailure
  | tag :: rest =>
    if tag = 0 then .ok
    else if tag = 1 then
      if 8 ≤ rest.length then
        let len := leDecode (rest.take 8)
        let rest2 := rest.drop 8
        if len ≤ rest2.length then
          if utf8Valid (rest2.take len) then .err (rest2.take len) else .ioFailure
        else .ioFailure
      else .ioFailure
    else .panicked

/-- C1: round-trip of the framed result protocol.  Encoding any result with
`write_result` and decoding with `read_result` yields `Ok(Ok(()))` for `Ok`,
and `Ok(Err(e'))` carrying exactly the original message bytes for `Err`;
the error frame is tag byte 1, an 8-byte little-endian length, and the
UTF-8 message bytes.  The hypotheses say the message is the byte encoding
of a Rust `String` (valid UTF-8) whose length fits in `usize`. -/
theorem write_result_read_result (r : Except (List Nat) Unit)
    (h : ∀ msg, r = .error msg → utf8Valid msg = true ∧ msg.length < 2 ^ 64) :
    read_result (write_result r) =
      (match r with
       | .ok _ => PipeResult.ok
       | .error msg => PipeResult.err msg) ∧
    write_result r =
      (match r with
       | .ok _ => [0]
       | .error msg => 1 :: (leBytes 8 msg.length ++ msg)) := by
  cases r with
  | ok _ => exact ⟨rfl, rfl⟩
  | error msg =>
      obtain ⟨hv, hlen⟩ := h msg rfl
      refine ⟨?_, rfl⟩
      have hl8 : (leBytes 8 msg.length).length = 8 := leBytes_length 8 _
      have ht : (leBytes 8 msg.length ++ msg).take 8 = leBytes 8 msg.length := by
        rw [← hl8]; exact List.take_left _ _
      have hd : (leBytes 8 msg.length ++ msg).drop 8 = msg := by
        rw [← hl8]; exact List.drop_left _ _
      have h64 : (2 : Nat) ^ 64 = 18446744073709551616 := by norm_num
      have hmod : msg.length % 18446744073709551616 = msg.length :=
        Nat.mod_eq_of_lt (h64 ▸ hlen)
      simp [write_result, read_result, ht, hd, hl8, leDecode_leBytes, hmod, hv]

/-- C1 witness: the error message "hi" (bytes 104, 105) round-trips. -/
theorem write_result_read_result_witness :
    read_result (write_result (Except.error [104, 105])) = PipeResult.err [104, 105] :=
  (write_result_read_result (Except.error [104, 105])
    (by intro msg hm; injection hm with h; subst h; exact ⟨by decide, by decide⟩)).1

/-- C9: a stream whose first (tag) byte is neither 0 nor 1 hits the
`unreachable!` arm of `read_result` (src/syscall.rs line 139): the call
panics and never produces a decoded success or error value. -/
theorem read_result_unknown_tag (b : Nat) (rest : List Nat)
    (hb : b < 256) (h0 : b ≠ 0) (h1 : b ≠ 1) :
    read_result (b :: rest) = PipeResult.panicked ∧
    PipeResult.panicked ≠ PipeResult.ok ∧
    ∀ msg, PipeResult.panicked ≠ PipeResult.err msg := by
  refine ⟨?_, by simp, fun msg => by simp⟩
  simp [read_result, h0, h1]

/-- C9 witness: tag byte 2 on an otherwise empty stream panics. -/
theorem read_result_unknown_tag_witness :
    read_result [2] = PipeResult.panicked :=
  (read_result_unknown_tag 2 [] (by decide) (by decide) (by decide)).1

/-! ## waitpid outcomes and reaping (src/syscall.rs 197-214, src/container.rs 50-60) -/

/-- An errno returned by a failing `waitpid` call. -/
inductive Errno where
  | echild : Errno
  | eintr : Errno
  | einval : Errno
  | other (n : Nat) : Errno
deriving DecidableEq

/-- The outcome of one `waitpid(pid, Some(WaitPidFlag::__WALL))` call:
either a `WaitStatus` or an `Err(errno)` from nix. -/
inductive WaitOutcome where
  | exited (pid : Int) (code : Int) : WaitOutcome
  | signaled (pid : Int) (sig : Nat) : WaitOutcome
  | otherStatus : WaitOutcome
  | failed (e : Errno) : WaitOutcome
deriving DecidableEq

/-- Result of a reaping operation as seen by its caller. -/
inductive ReapResult where
  | ok : ReapResult
  | exitCodeErr (code : Int) : ReapResult
  | signalErr (sig : Nat) : ReapResult
  | errnoErr (e : Errno) : ReapResult
  | panicked : ReapResult
deriving DecidableEq

/-- `OwnedPid::wait_success` (src/syscall.rs lines 197-205):
`waitpid(...)?` propagates any errno (including `ECHILD`) as an error;
`Exited(_, 0)` is success, other exits and signals are errors, and any
other status hits `panic!`. -/
def wait_success (w : WaitOutcome) : ReapResult :=
  match w with
  | .failed e => .errnoErr e
  | .exited _ 0 => .ok
  | .exited _ v => .exitCodeErr v
  | .signaled _ v => .signalErr v
  | .otherStatus => .panicked

/-- `impl Drop for OwnedPid` (src/syscall.rs lines 208-214):
`waitpid(pid, Some(__WALL)).unwrap()` — any errno (including `ECHILD`)
panics; every successfully returned status is discarded. -/
def owned_pid_drop_reap (w : WaitOutcome) : ReapResult :=
  match w with
  | .failed _ => .panicked
  | _ => .ok

/-- `Container::kill` (src/container.rs lines 50-60): open and write
`"1"` to `cgroup.kill` (its failure, `killFileErr`, is propagated),
then `let _ = waitpid(pid, Some(__WALL))` — the wait outcome `w` is
discarded entirely, so every `waitpid` failure is treated as success.
`pidSet` is whether `self.pid` was `Some`. -/
def container_kill (killFileErr : Option String) (pidSet : Bool) (w : WaitOutcome) :
    Except String Unit :=
  match killFileErr with
  | some e => .error e
  | none =>
      match pidSet, w with
      | _, _ => .ok ()

/-- C3 counterexample: the claim that every reaping operation treats an
`ECHILD` failure from `waitpid` as success is false at the concrete
outcome `Err(ECHILD)`: `OwnedPid::wait_success` surfaces it as an error
to the caller, and the `OwnedPid` drop reap panics on it. -/
theorem echild_not_success_counterexample :
    wait_success (WaitOutcome.failed Errno.echild) = ReapResult.errnoErr Errno.echild ∧
    wait_success (WaitOutcome.failed Errno.echild) ≠ ReapResult.ok ∧
    owned_pid_drop_reap (WaitOutcome.failed Errno.echild) = ReapResult.panicked := by
  refine ⟨rfl, by decide, rfl⟩

/-- C3 amended: only `Container::kill` treats a failing `waitpid`
(in particular `ECHILD`) as success — it discards every wait outcome;
`OwnedPid::wait_success` surfaces `ECHILD` to the caller as an error,
and the `OwnedPid` drop reap panics on it. -/
theorem echild_handling (pidSet : Bool) (w : WaitOutcome) :
    container_kill none pidSet w = .ok () ∧
    wait_success (WaitOutcome.failed Errno.echild) = ReapResult.errnoErr Errno.echild ∧
    owned_pid_drop_reap (WaitOutcome.failed Errno.echild) = ReapResult.panicked := by
  exact ⟨rfl, rfl, rfl⟩

/-! ## `Container::destroy` (src/container.rs lines 63-74) and the
run-as-root state cleanup (src/container.rs lines 92-141) -/

/-- Existence of the two per-container directories. -/
structure ContainerFs where
  stateDirExists : Bool
  cgroupDirExists : Bool
deriving DecidableEq

/-- The three cleanup steps of `destroy`, in source order. -/
inductive DestroyStep where
  | killStep : DestroyStep
  | removeStateStep : DestroyStep
  | removeCgroupStep : DestroyStep
deriving DecidableEq

/-- Outcome of one `AsRootTask::start` run (src/container.rs lines
97-121).  `parentErr` is a failure of the parent branch itself —
`setup_user_namespace`, the unlock write (container.rs:131-139), or a
`waitpid` errno (container.rs:117); `childRan` records whether the
unlock byte reached the child so that `child_main` invoked the
closure; `childFuncErr` is the outcome of the closure inside the
child.  On a closure failure the child prints the error to stderr and
exits with status 1 (container.rs:105-111), but the parent never reads
a result frame from the child and never inspects the exit status. -/
structure AsRootEnv where
  parentErr : Option String
  childRan : Bool
  childFuncErr : Option String

/-- `AsRootTask::start` (src/container.rs lines 97-121) as seen by its
caller: only `parent_main`'s own failure (or the `waitpid` errno) is
returned; the child's outcome is invisible, because the parent runs
`waitpid(child, __WALL)?` and discards the wait status. -/
def as_root_task_start (env : AsRootEnv) : Option String :=
  env.parentErr

/-- `Container::remove_state` (src/container.rs lines 72-74):
`remove_dir_all(&self.state_path)` run inside the `AsRootTask` child.
Returns the caller-visible result together with the new existence of
the state directory: the directory is removed exactly when the closure
ran and succeeded in the child, while the caller-visible result is
that of `as_root_task_start` and ignores the closure entirely. -/
def remove_state (env : AsRootEnv) (stateDirExists : Bool) : Option String × Bool :=
  (as_root_task_start env,
   if env.childRan && env.childFuncErr.isNone then false else stateDirExists)

/-- A direct `std::fs::remove_dir` call made by this process (the
cgroup rmdir of src/container.rs line 66): on success the directory no
longer exists; on failure the error is reported and the directory's
existence is unchanged. -/
def removeDirOp (err : Option String) (exists_ : Bool) : Option String × Bool :=
  match err with
  | some e => (some e, exists_)
  | none => (none, false)

/-- `Container::destroy` (src/container.rs lines 63-70):
`let kill_err = self.kill(); let state_err = self.remove_state();
let cgroup_err = remove_dir(&self.cgroup_path); kill_err?; state_err?;
Ok(cgroup_err?)` — all three steps run unconditionally and the first
error (in that order) is returned.  Returns the final directory state,
the steps performed, and the returned error (if any). -/
def destroy (killErr : Option String) (stateEnv : AsRootEnv)
    (removeCgroupErr : Option String) (fs : ContainerFs) :
    ContainerFs × List DestroyStep × Option String :=
  let stateRes := remove_state stateEnv fs.stateDirExists
  let cgroupRes := removeDirOp removeCgroupErr fs.cgroupDirExists
  (⟨stateRes.2, cgroupRes.2⟩,
   [DestroyStep.killStep, DestroyStep.removeStateStep, DestroyStep.removeCgroupStep],
   killErr <|> stateRes.1 <|> cgroupRes.1)

/-- C2 counterexample: when the child's `remove_dir_all` fails (here
with a permission error) while the kill, the `AsRootTask` parent
branch and the cgroup `remove_dir` all succeed, `destroy` returns `Ok`
even though the state directory still exists — `AsRootTask::start`
never reads the child's result or exit status, so the failure is lost. -/
theorem destroy_ok_state_counterexample :
    (destroy none ⟨none, true, some "Permission denied (os error 13)"⟩ none
      ⟨true, true⟩).2.2 = none ∧
    (destroy none ⟨none, true, some "Permission denied (os error 13)"⟩ none
      ⟨true, true⟩).1.stateDirExists = true := by
  exact ⟨rfl, rfl⟩

/-- C2 amended: `destroy` performs all three cleanup steps even when
earlier ones fail and returns the first error among the kill, the
run-as-root state removal — whose caller-visible result is that of the
`AsRootTask` parent branch only — and the cgroup `remove_dir`, in that
order.  Whenever `destroy` returns `Ok` the cgroup directory no longer
exists; the state directory, however, is gone exactly when the child's
`remove_dir_all` ran and succeeded, which the returned value does not
reflect. -/
theorem destroy_best_effort (killErr : Option String) (stateEnv : AsRootEnv)
    (removeCgroupErr : Option String) (fs : ContainerFs) :
    (destroy killErr stateEnv removeCgroupErr fs).2.1 =
      [DestroyStep.killStep, DestroyStep.removeStateStep, DestroyStep.removeCgroupStep] ∧
    (destroy killErr stateEnv removeCgroupErr fs).2.2 =
      (killErr <|> stateEnv.parentErr <|> removeCgroupErr) ∧
    ((destroy killErr stateEnv removeCgroupErr fs).2.2 = none →
      (destroy killErr stateEnv removeCgroupErr fs).1.cgroupDirExists = false) ∧
    (stateEnv.childRan = true → stateEnv.childFuncErr = none →
      (destroy killErr stateEnv removeCgroupErr fs).1.stateDirExists = false) := by
  obtain ⟨p, r, f⟩ := stateEnv
  refine ⟨rfl, ?_, ?_, ?_⟩
  · cases removeCgroupErr <;> rfl
  · cases killErr <;> cases p <;> cases removeCgroupErr <;>
      simp [destroy, remove_state, as_root_task_start, removeDirOp, Option.orElse]
  · intro hr hf
    simp only at hr hf
    subst hr hf
    simp [destroy, remove_state, as_root_task_start]

/-- C2 amended-claim witness: with every step succeeding and the child
actually running its closure, `destroy` returns `Ok` and both
directories are gone. -/
theorem destroy_best_effort_witness :
    (destroy none ⟨none, true, none⟩ none ⟨true, true⟩).2.2 = none ∧
    (destroy none ⟨none, true, none⟩ none ⟨true, true⟩).1.cgroupDirExists = false ∧
    (destroy none ⟨none, true, none⟩ none ⟨true, true⟩).1.stateDirExists = false := by
  have h := destroy_best_effort none ⟨none, true, none⟩ none ⟨true, true⟩
  have hnone : (destroy none ⟨none, true, none⟩ none ⟨true, true⟩).2.2 = none := by
    rw [h.2.1]; rfl
  exact ⟨hnone, h.2.2.1 hnone, h.2.2.2 rfl rfl⟩

/-! ## The `UserMapper` trait surface used by `Manager::new`
(src/manager.rs lines 20-43) -/

/-- The part of the `UserMapper` trait that `Manager::new` consults:
`uid_count`, `gid_count`, `is_uid_mapped`, `is_gid_mapped`. -/
structure UserMapperSig where
  uid_count : Nat
  gid_count : Nat
  is_uid_mapped : Nat → Bool
  is_gid_mapped : Nat → Bool

/-- Result of `Manager::new`: the `assert!` on the cgroup path aborts,
a failing step returns an error, success yields a `Manager` retaining
the supplied mapper. -/
inductive ManagerResult where
  | panicked : ManagerResult
  | failed (msg : String) : ManagerResult
  | created (user_mapper : UserMapperSig) : ManagerResult

/-- `Manager::new` (src/manager.rs lines 20-43): assert the cgroup path
is under `/sys/fs/cgroup/` (`pathOk`), create the cgroup directory
(tolerating already-exists) and the state directory — their failures
are `cgroupCreateErr` / `stateCreateErr` — then reject a mapper that
maps more than one uid without mapping uid 0, and likewise for gids. -/
def manager_new (pathOk : Bool) (cgroupCreateErr stateCreateErr : Option String)
    (user_mapper : UserMapperSig) : ManagerResult :=
  if !pathOk then .panicked
  else
    match cgroupCreateErr with
    | some e => .failed ("Cannot create cgroup: " ++ e)
    | none =>
        match stateCreateErr with
        | some e => .failed ("Cannot create state directory: " ++ e)
        | none =>
            if user_mapper.uid_count > 1 && !user_mapper.is_uid_mapped 0 then
              .failed "No mapping for root user"
            else if user_mapper.gid_count > 1 && !user_mapper.is_gid_mapped 0 then
              .failed "No mapping for root group"
            else .created user_mapper

/-- C4: `Manager::new` returns an error whenever the supplied mapper
maps more than one uid but does not map uid 0 (and likewise for gids);
consequently, any successfully constructed `Manager` holds a mapper for
which mapping more than one uid (resp. gid) implies id 0 is mapped. -/
theorem manager_new_root_mapping (cgroupCreateErr stateCreateErr : Option String)
    (m : UserMapperSig)
    (hbad : (m.uid_count > 1 ∧ m.is_uid_mapped 0 = false) ∨
            (m.gid_count > 1 ∧ m.is_gid_mapped 0 = false)) :
    (∃ msg, manager_new true cgroupCreateErr stateCreateErr m = .failed msg) ∧
    (∀ pOk cErr sErr (m' : UserMapperSig) (mm : UserMapperSig),
      manager_new pOk cErr sErr m' = .created mm →
      (mm.uid_count > 1 → mm.is_uid_mapped 0 = true) ∧
      (mm.gid_count > 1 → mm.is_gid_mapped 0 = true)) := by
  constructor
  · cases cgroupCreateErr with
    | some e => exact ⟨_, rfl⟩
    | none =>
        cases stateCreateErr with
        | some e => exact ⟨_, rfl⟩
        | none =>
            cases hc1 : (m.uid_count > 1 && !m.is_uid_mapped 0) with
            | true => exact ⟨"No mapping for root user", by simp [manager_new, hc1]⟩
            | false =>
                have hc2 : (m.gid_count > 1 && !m.is_gid_mapped 0) = true := by
                  simp only [Bool.and_eq_false_imp, decide_eq_true_eq,
                    Bool.not_eq_true', Bool.not_eq_false] at hc1
                  rcases hbad with ⟨h1, h2⟩ | ⟨h1, h2⟩
                  · exact absurd (hc1 h1) (by simp [h2])
                  · simp [h1, h2]
                exact ⟨"No mapping for root group", by simp [manager_new, hc1, hc2]⟩
  · intro pOk cErr sErr m' mm hok
    cases pOk with
    | false => simp [manager_new] at hok
    | true =>
        cases cErr with
        | some e => simp [manager_new] at hok
        | none =>
            cases sErr with
            | some e => simp [manager_new] at hok
            | none =>
                cases h1 : (m'.uid_count > 1 && !m'.is_uid_mapped 0) with
                | true => simp [manager_new, h1] at hok
                | false =>
                    cases h2 : (m'.gid_count > 1 && !m'.is_gid_mapped 0) with
                    | true => simp [manager_new, h1, h2] at hok
                    | false =>
                        have hmm : m' = mm := by
                          simpa [manager_new, h1, h2] using hok
                        subst hmm
                        simp only [Bool.and_eq_false_imp, decide_eq_true_eq] at h1 h2
                        exact ⟨fun hc => by simpa using h1 hc, fun hc => by simpa using h2 hc⟩

/-- C4 witness: a mapper mapping uids 1000 and 1001 but not uid 0 is
rejected, and a constructed manager with a multi-uid mapper maps 0. -/
theorem manager_new_root_mapping_witness :
    (∃ msg,
      manager_new true none none
        ⟨2, 1, fun n => decide (1000 ≤ n ∧ n < 1002), fun n => n == 0⟩ = .failed msg) := by
  exact (manager_new_root_mapping none none
    ⟨2, 1, fun n => decide (1000 ≤ n ∧ n < 1002), fun n => n == 0⟩
    (Or.inl ⟨by norm_num, by decide⟩)).1

/-! ## `is_id_mapped` (src/user.rs lines 332-345) -/

/-- `IdMap<T>` for `T = uid_t`/`gid_t` (src/user.rs lines 22-29): the
fields are `u32` values, so all arithmetic on them is modulo `2^32`. -/
structure IdMapRange where
  container_id : Nat
  host_id : Nat
  size : Nat
deriving DecidableEq

/-- `is_id_mapped` (src/user.rs lines 332-345): for each range, skip it
when `container_id + size <= id` (the sum computed in `u32`, hence
wrapping modulo `2^32` in release builds), otherwise answer `true` when
`container_id <= id`; answer `false` when no range answers. -/
def is_id_mapped : List IdMapRange → Nat → Bool
  | [], _ => false
  | v :: rest, id =>
    if (v.container_id + v.size) % 4294967296 ≤ id then is_id_mapped rest id
    else if v.container_id ≤ id then true
    else is_id_mapped rest id

/-- C5 counterexample: with the single range
`{container_id = 2^32 - 1, host_id = 0, size = 2}` the id `2^32 - 1` is
contained in the range under exact arithmetic, yet `is_id_mapped`
answers `false`: the `u32` sum `container_id + size` wraps to `1`, so
the range is skipped. -/
theorem is_id_mapped_overflow_counterexample :
    is_id_mapped [⟨4294967295, 0, 2⟩] 4294967295 = false ∧
    (4294967295 ≤ 4294967295 ∧ (4294967295 : Nat) < 4294967295 + 2) := by
  exact ⟨by decide, by norm_num⟩

/-- C5 amended: provided no range's `container_id + size` overflows
`u32` (i.e. `container_id + size < 2^32`), `is_id_mapped` returns
`true` exactly when some range contains the id:
`container_id ≤ id < container_id + size`. -/
theorem is_id_mapped_iff (l : List IdMapRange) (id : Nat)
    (hnw : ∀ v ∈ l, v.container_id + v.size < 4294967296) :
    is_id_mapped l id = true ↔
      ∃ v ∈ l, v.container_id ≤ id ∧ id < v.container_id + v.size := by
  induction l with
  | nil => simp [is_id_mapped]
  | cons v rest ih =>
      have hv : v.container_id + v.size < 4294967296 := hnw v (List.mem_cons_self v rest)
      have hrest : ∀ w ∈ rest, w.container_id + w.size < 4294967296 :=
        fun w hw => hnw w (List.mem_cons_of_mem v hw)
      have hmod : (v.container_id + v.size) % 4294967296 = v.container_id + v.size :=
        Nat.mod_eq_of_lt hv
      simp only [is_id_mapped, hmod]
      by_cases h1 : v.container_id + v.size ≤ id
      · rw [if_pos h1, ih hrest]
        constructor
        · rintro ⟨w, hw, hc⟩
          exact ⟨w, List.mem_cons_of_mem v hw, hc⟩
        · rintro ⟨w, hw, hc1, hc2⟩
          rcases List.mem_cons.mp hw with rfl | hw'
          · omega
          · exact ⟨w, hw', hc1, hc2⟩
      · rw [if_neg h1]
        by_cases h2 : v.container_id ≤ id
        · simp only [if_pos h2, true_iff]
          exact ⟨v, List.mem_cons_self v rest, h2, by omega⟩
        · rw [if_neg h2, ih hrest]
          constructor
          · rintro ⟨w, hw, hc⟩
            exact ⟨w, List.mem_cons_of_mem v hw, hc⟩
          · rintro ⟨w, hw, hc1, hc2⟩
            rcases List.mem_cons.mp hw with rfl | hw'
            · omega
            · exact ⟨w, hw', hc1, hc2⟩

/-- C5 witness: the single non-overflowing range `{0 → 0, size 1}` maps
id 0 and the theorem applies to it. -/
theorem is_id_mapped_iff_witness :
    is_id_mapped [⟨0, 0, 1⟩] 0 = true := by
  exact (is_id_mapped_iff [⟨0, 0, 1⟩] 0 (by intro v hv; simp at hv; subst hv; norm_num)).mpr
    ⟨⟨0, 0, 1⟩, by simp, by norm_num, by norm_num⟩

/-! ## `Cgroup::current` (src/cgroup.rs lines 47-62) -/

/-- Rust's `str::split(c)`: the (possibly empty) parts of `s` between
occurrences of `c`; the empty string yields one empty part. -/
def splitOnChar (c : Char) : List Char → List (List Char)
  | [] => [[]]
  | x :: rest =>
    let r := splitOnChar c rest
    if x = c then [] :: r
    else
      match r with
      | [] => [[x]]
      | h :: t => (x :: h) :: t

/-- A cgroup handle: its `mount_path` and full `path`
(src/cgroup.rs lines 10-13), with paths as character lists. -/
structure Cgroup where
  mount_path : List Char
  path : List Char
deriving DecidableEq

/-- `PathBuf::join` of an absolute base and a relative component:
base, separator, component. -/
def pathJoin (a b : List Char) : List Char := a ++ '/' :: b

/-- The `CGROUP_MOUNT` constant `/sys/fs/cgroup`
(src/cgroup.rs line 16). -/
def cgroupMount : List Char := "/sys/fs/cgroup".data

/-- `Cgroup::new` (src/cgroup.rs lines 20-31): reject an absolute name
and a non-absolute mount path, otherwise join. -/
def cgroup_new (mount name : List Char) : Except String Cgroup :=
  if name.head? = some '/' then .error "Cgroup name cannot be absolute"
  else if mount.head? ≠ some '/' then .error "Cgroup mount path should be absolute"
  else .ok ⟨mount, pathJoin mount name⟩

/-- The loop body of `Cgroup::current` (src/cgroup.rs lines 48-60) over
the `'\n'`-separated lines: a line whose second `':'`-field exists and
is non-empty is skipped; otherwise the third field (if absent:
`Err("Expected cgroup path")`) is stripped of leading `'/'` and handed
to `Cgroup::new` with the well-known mount. -/
def cgroup_current_lines : List (List Char) → Except String Cgroup
  | [] => .error "Cannot resolve cgroup"
  | line :: rest =>
    let parts := splitOnChar ':' line
    match parts[1]? with
    | some v =>
        if v ≠ [] then cgroup_current_lines rest
        else
          match parts[2]? with
          | none => .error "Expected cgroup path"
          | some p => cgroup_new cgroupMount (p.dropWhile (fun c => c = '/'))
    | none =>
        match parts[2]? with
        | none => .error "Expected cgroup path"
        | some p => cgroup_new cgroupMount (p.dropWhile (fun c => c = '/'))

/-- `Cgroup::current` (src/cgroup.rs lines 47-62) on the decoded
content of `/proc/self/cgroup`. -/
def cgroup_current (content : List Char) : Except String Cgroup :=
  cgroup_current_lines (splitOnChar '\n' content)

/-- C6 counterexample: on the content `"0:"` — whose only line has an
*empty* second `':'`-field — `current` does not return that line's
cgroup, nor the `Cannot resolve cgroup` error the claim allows; it
fails with `Expected cgroup path` because the line has no third field.
So an error is returned even though a line with an empty second field
exists. -/
theorem cgroup_current_counterexample :
    cgroup_current ['0', ':'] = .error "Expected cgroup path" ∧
    (splitOnChar ':' ['0', ':'])[1]? = some [] := by
  exact ⟨rfl, rfl⟩

/-- Whether `Cgroup::current` skips a line: its second `':'`-field
exists and is non-empty (src/cgroup.rs lines 50-54). -/
def lineSkipped (line : List Char) : Bool :=
  match (splitOnChar ':' line)[1]? with
  | some v => !v.isEmpty
  | none => false

/-- C6 amended: `current` selects the first line that is not skipped,
where a line is skipped exactly when its second `':'`-field exists and
is non-empty.  If no line qualifies the error is
`Cannot resolve cgroup`; if the selected line has no third field the
error is `Expected cgroup path` (even when a later line would qualify);
otherwise the result is `Cgroup::new` of `/sys/fs/cgroup` and the third
field with leading `'/'` stripped. -/
theorem cgroup_current_characterisation (content : List Char) :
    cgroup_current content =
      (match (splitOnChar '\n' content).find? (fun l => !lineSkipped l) with
       | none => .error "Cannot resolve cgroup"
       | some line =>
           match (splitOnChar ':' line)[2]? with
           | none => .error "Expected cgroup path"
           | some p => cgroup_new cgroupMount (p.dropWhile (fun c => c = '/'))) := by
  show cgroup_current_lines (splitOnChar '\n' content) = _
  generalize splitOnChar '\n' content = lines
  induction lines with
  | nil => rfl
  | cons line rest ih =>
      simp only [cgroup_current_lines, List.find?_cons]
      cases hv : (splitOnChar ':' line)[1]? with
      | none =>
          have hsk : lineSkipped line = false := by simp [lineSkipped, hv]
          simp [hsk, hv]
      | some v =>
          cases v with
          | nil =>
              have hsk : lineSkipped line = false := by simp [lineSkipped, hv]
              simp [hsk, hv]
          | cons c cs =>
              have hsk : lineSkipped line = true := by simp [lineSkipped, hv]
              simp [hsk, hv, ih]

/-! ## `Manager::create_container` (src/manager.rs lines 60-93) and the
overlay mount of `InitTask::setup_mount_namespace`
(src/tasks.rs lines 254-281, 352-380) -/

/-- Result of `Manager::create_container`: failure, or a container
whose state directory holds the listed subdirectories. -/
inductive CreateContainerResult where
  | failed (msg : String) : CreateContainerResult
  | created (state_subdirs : List String) : CreateContainerResult
deriving DecidableEq

/-- `Manager::create_container` (src/manager.rs lines 60-93): after the
stale-cgroup removal, it creates the cgroup directory, the state
directory, then `state_path/rootfs` (tolerating already-exists),
`state_path/diff` (tolerating already-exists) and `state_path/work`;
on success the state directory holds exactly those three
subdirectories.  Each parameter is the outcome of the corresponding
`create_dir` call. -/
def create_container (cgroupErr stateErr rootfsErr diffErr workErr : Option String) :
    CreateContainerResult :=
  match cgroupErr with
  | some e => .failed ("Cannot create cgroup: " ++ e)
  | none =>
      match stateErr with
      | some e => .failed ("Cannot create state directory: " ++ e)
      | none =>
          match rootfsErr with
          | some e => .failed ("Cannot create rootfs: " ++ e)
          | none =>
              match diffErr with
              | some e => .failed ("Cannot create overlay diff: " ++ e)
              | none =>
                  match workErr with
                  | some e => .failed ("Cannot create overlay work: " ++ e)
                  | none => .created ["rootfs", "diff", "work"]

/-- src/tasks.rs line 255: `let rootfs = container.state_path.join("rootfs")`. -/
def init_task_rootfs (state_path : String) : String := state_path ++ "/rootfs"

/-- src/tasks.rs line 256: `let diff = container.state_path.join("diff")`. -/
def init_task_diff (state_path : String) : String := state_path ++ "/diff"

/-- src/tasks.rs line 257: `let work = container.state_path.join("work")`. -/
def init_task_work (state_path : String) : String := state_path ++ "/work"

/-- `InitTask::setup_overlayfs` (src/tasks.rs lines 352-380): the
`data` string of the overlay mount,
`lowerdir=…,upperdir=…,workdir=…`. -/
def setup_overlayfs_data (layers : List String) (diff work : String) : String :=
  "lowerdir=" ++ String.intercalate ":" layers ++ ",upperdir=" ++ diff ++ ",workdir=" ++ work

/-- The overlay mount data used by `InitTask::setup_mount_namespace`
(src/tasks.rs line 281): the upper directory passed is `diff`. -/
def init_task_overlay_data (state_path : String) (layers : List String) : String :=
  setup_overlayfs_data layers (init_task_diff state_path) (init_task_work state_path)

/-- C7 counterexample: the state layout created by `create_container`
is `rootfs`, `diff`, `work` — there is no `upper` subdirectory — and at
the concrete state path `/var/sbox/c1` the overlay mount's upperdir is
`/var/sbox/c1/diff`, not `/var/sbox/c1/upper`. -/
theorem create_container_layout_counterexample :
    create_container none none none none none = .created ["rootfs", "diff", "work"] ∧
    ("upper" ∈ ["rootfs", "diff", "work"]) = False ∧
    init_task_overlay_data "/var/sbox/c1" ["/layers/base"] =
      "lowerdir=/layers/base,upperdir=/var/sbox/c1/diff,workdir=/var/sbox/c1/work" ∧
    init_task_overlay_data "/var/sbox/c1" ["/layers/base"] ≠
      "lowerdir=/layers/base,upperdir=/var/sbox/c1/upper,workdir=/var/sbox/c1/work" := by
  refine ⟨rfl, by simp, by rfl, by decide⟩

/-- C7 amended: after `create_container` succeeds the per-container
state layout consists of `state_path/rootfs` (the pivot target),
`state_path/diff` (the overlay upper directory) and `state_path/work`
(the overlay work directory), and the overlay mount performed at init
launch uses `state_path/diff` as its upperdir. -/
theorem create_container_layout (cgroupErr stateErr rootfsErr diffErr workErr : Option String)
    (state_path : String) (layers : List String) :
    (∀ subdirs, create_container cgroupErr stateErr rootfsErr diffErr workErr =
        .created subdirs → subdirs = ["rootfs", "diff", "work"]) ∧
    init_task_overlay_data state_path layers =
      "lowerdir=" ++ String.intercalate ":" layers ++ ",upperdir=" ++
        (state_path ++ "/diff") ++ ",workdir=" ++ (state_path ++ "/work") := by
  constructor
  · intro subdirs h
    cases cgroupErr <;> cases stateErr <;> cases rootfsErr <;> cases diffErr <;>
      cases workErr <;> simp [create_container] at h <;> exact h.symm
  · rfl

/-- C7 amended-claim witness: the successful run creates exactly
`rootfs`, `diff`, `work`. -/
theorem create_container_layout_witness :
    create_container none none none none none = .created ["rootfs", "diff", "work"] ∧
    ["rootfs", "diff", "work"] = ["rootfs", "diff", "work"] := by
  exact ⟨rfl, (create_container_layout none none none none none "/s" []).1
    ["rootfs", "diff", "work"] rfl ▸ rfl⟩

/-! ## `new_pipe` (src/syscall.rs lines 119-124) -/

/-- A file-descriptor flag that can be set on a pipe end. -/
inductive FdFlag where
  | cloexec : FdFlag
  | nonblock : FdFlag
deriving DecidableEq

/-- The two ends of a pipe with the fd flags set on each. -/
structure PipeEnds where
  rxFlags : List FdFlag
  txFlags : List FdFlag
deriving DecidableEq

/-- `new_pipe` (src/syscall.rs lines 119-124): calls
`nix::unistd::pipe()`, the plain `pipe(2)` syscall, which sets no file
descriptor flags on either end (the flag-setting variant would be
`pipe2(O_CLOEXEC)`, which is not used). -/
def new_pipe : PipeEnds := ⟨[], []⟩

/-- C8 counterexample: `new_pipe` does not set `O_CLOEXEC` on either
the reader or the writer end. -/
theorem new_pipe_cloexec_counterexample :
    (FdFlag.cloexec ∈ new_pipe.rxFlags) = False ∧
    (FdFlag.cloexec ∈ new_pipe.txFlags) = False := by
  constructor <;> simp [new_pipe]

/-- C8 amended: `new_pipe` creates its pipe with the plain `pipe(2)`
syscall; `O_CLOEXEC` is not set on either end, so both ends are
inherited across an exec unless explicitly closed first. -/
theorem new_pipe_no_flags :
    new_pipe.rxFlags = [] ∧ new_pipe.txFlags = [] ∧
    FdFlag.cloexec ∉ new_pipe.rxFlags ∧ FdFlag.cloexec ∉ new_pipe.txFlags := by
  refine ⟨rfl, rfl, by simp [new_pipe], by simp [new_pipe]⟩

/-! ## `InitProcessOptions::start` and `ProcessOptions::start`
(src/process.rs lines 81-230 and 311-471) -/

/-- The builder state consulted by `start`: the optional uid/gid set by
`user(..)`, the work dir and the command. -/
structure StartOptions where
  uid : Option Nat
  gid : Option Nat
  work_dir : String
  command : List String

/-- One step performed by the cloned child between the handshake and
`execvpe`, in source order. -/
inductive ChildEvent where
  | setupMountNs : ChildEvent
  | setHostname : ChildEvent
  | setNetwork : ChildEvent
  | setnsCgroup : ChildEvent
  | setupStdio : ChildEvent
  | closeFds : ChildEvent
  | chdirTo (d : String) : ChildEvent
  | setUser (uid gid : Nat) : ChildEvent
  | execv (cmd : List String) : ChildEvent
deriving DecidableEq

/-- The child-side sequence of `InitProcessOptions::start`
(src/process.rs lines 130-190): mount namespace, hostname, optional
network setup, stdio `dup2`s, `close_exec_from(3)`, `chdir`,
`user_mapper.set_user(uid, gid)`, then `execvpe`. -/
def init_child_events (hasNetwork : Bool) (work_dir : String) (uid gid : Nat)
    (cmd : List String) : List ChildEvent :=
  [ChildEvent.setupMountNs, ChildEvent.setHostname] ++
  (if hasNetwork then [ChildEvent.setNetwork] else []) ++
  [ChildEvent.setupStdio, ChildEvent.closeFds, ChildEvent.chdirTo work_dir,
   ChildEvent.setUser uid gid, ChildEvent.execv cmd]

/-- The grandchild-side sequence of `ProcessOptions::start`
(src/process.rs lines 373-433): cgroup-namespace `setns`, stdio
`dup2`s, `close_exec_from(3)`, `chdir`,
`user_mapper.set_user(uid, gid)`, then `execvpe`. -/
def exec_child_events (work_dir : String) (uid gid : Nat) (cmd : List String) :
    List ChildEvent :=
  [ChildEvent.setnsCgroup, ChildEvent.setupStdio, ChildEvent.closeFds,
   ChildEvent.chdirTo work_dir, ChildEvent.setUser uid gid, ChildEvent.execv cmd]

/-- Outcome of a `start` call: an early error, or a launch with the
resolved credentials and the child's planned event sequence. -/
inductive StartOutcome where
  | failed (msg : String) : StartOutcome
  | launched (uid gid : Nat) (work_dir : String) (events : List ChildEvent) : StartOutcome

/-- The shared prologue of `InitProcessOptions::start`
(src/process.rs lines 81-96) and `ProcessOptions::start`
(lines 311-328): `uid = self.uid.unwrap_or(0)` checked against
`is_uid_mapped`, then `gid = self.gid.unwrap_or(0)` against
`is_gid_mapped`, then the work dir defaulted to `/`.  `midErr` is any
later host-side failure (cgroup creation, `/dev/null`, pipes, clone). -/
def start_prologue (m : UserMapperSig) (opts : StartOptions) (midErr : Option String)
    (events : String → Nat → Nat → List String → List ChildEvent) : StartOutcome :=
  let uid := opts.uid.getD 0
  if !m.is_uid_mapped uid then .failed ("User " ++ toString uid ++ " is not mapped")
  else
    let gid := opts.gid.getD 0
    if !m.is_gid_mapped gid then .failed ("Group " ++ toString gid ++ " is not mapped")
    else
      let wd := if opts.work_dir ≠ "" then opts.work_dir else "/"
      match midErr with
      | some e => .failed e
      | none => .launched uid gid wd (events wd uid gid opts.command)

/-- `InitProcessOptions::start` (src/process.rs lines 81-230). -/
def init_process_start (m : UserMapperSig) (opts : StartOptions) (hasNetwork : Bool)
    (midErr : Option String) : StartOutcome :=
  start_prologue m opts midErr (fun wd uid gid cmd => init_child_events hasNetwork wd uid gid cmd)

/-- `ProcessOptions::start` (src/process.rs lines 311-471). -/
def exec_process_start (m : UserMapperSig) (opts : StartOptions)
    (midErr : Option String) : StartOutcome :=
  start_prologue m opts midErr (fun wd uid gid cmd => exec_child_events wd uid gid cmd)

/-- Event `a` occurs strictly before event `b` in the list. -/
def eventBefore (evs : List ChildEvent) (a b : ChildEvent) : Prop :=
  ∃ i j : Nat, i < j ∧ evs[i]? = some a ∧ evs[j]? = some b

/-- C10: when the caller never sets a user, both
`InitProcessOptions::start` and `ProcessOptions::start` default to
uid 0 and gid 0: they fail with the not-mapped error when the mapper
does not map id 0, and otherwise any launched child switches its
credentials to uid 0 / gid 0 before `execvpe`. -/
theorem start_defaults_to_root (m : UserMapperSig) (opts : StartOptions)
    (hasNetwork : Bool) (midErr midErr2 : Option String)
    (huid : opts.uid = none) (hgid : opts.gid = none) :
    (m.is_uid_mapped 0 = false →
      init_process_start m opts hasNetwork midErr = .failed "User 0 is not mapped" ∧
      exec_process_start m opts midErr2 = .failed "User 0 is not mapped") ∧
    (m.is_uid_mapped 0 = true → m.is_gid_mapped 0 = false →
      init_process_start m opts hasNetwork midErr = .failed "Group 0 is not mapped" ∧
      exec_process_start m opts midErr2 = .failed "Group 0 is not mapped") ∧
    (∀ uid gid wd evs,
      init_process_start m opts hasNetwork midErr = .launched uid gid wd evs →
      uid = 0 ∧ gid = 0 ∧ eventBefore evs (ChildEvent.setUser 0 0)
        (ChildEvent.execv opts.command)) ∧
    (∀ uid gid wd evs,
      exec_process_start m opts midErr2 = .launched uid gid wd evs →
      uid = 0 ∧ gid = 0 ∧ eventBefore evs (ChildEvent.setUser 0 0)
        (ChildEvent.execv opts.command)) := by
  refine ⟨?_, ?_, ?_, ?_⟩
  · intro h0
    constructor <;>
      · simp [init_process_start, exec_process_start, start_prologue, huid, h0]
        rfl
  · intro hu hg
    constructor <;>
      · simp [init_process_start, exec_process_start, start_prologue, huid, hgid, hu, hg]
        rfl
  · intro uid gid wd evs h
    simp only [init_process_start, start_prologue, huid, hgid, Option.getD_none] at h
    cases hu : m.is_uid_mapped 0 with
    | false => simp [hu] at h
    | true =>
        cases hg : m.is_gid_mapped 0 with
        | false => simp [hu, hg] at h
        | true =>
            cases midErr with
            | some e => simp [hu, hg] at h
            | none =>
                simp only [hu, hg, Bool.not_true, Bool.false_eq_true, if_false] at h
                cases h
                refine ⟨rfl, rfl, ?_⟩
                cases hasNetwork with
                | false => exact ⟨5, 6, by omega, rfl, rfl⟩
                | true => exact ⟨6, 7, by omega, rfl, rfl⟩
  · intro uid gid wd evs h
    simp only [exec_process_start, start_prologue, huid, hgid, Option.getD_none] at h
    cases hu : m.is_uid_mapped 0 with
    | false => simp [hu] at h
    | true =>
        cases hg : m.is_gid_mapped 0 with
        | false => simp [hu, hg] at h
        | true =>
            cases midErr2 with
            | some e => simp [hu, hg] at h
            | none =>
                simp only [hu, hg, Bool.not_true, Bool.false_eq_true, if_false] at h
                cases h
                exact ⟨rfl, rfl, 4, 5, by omega, rfl, rfl⟩

/-- C10 witness: with a mapper that maps only id 1000 and no user set,
both starts fail with `User 0 is not mapped`; with a root-only mapper
they launch with uid 0, gid 0 and `set_user(0, 0)` precedes `execvpe`. -/
theorem start_defaults_to_root_witness :
    init_process_start ⟨1, 1, fun n => n == 1000, fun n => n == 1000⟩
        ⟨none, none, "", ["/bin/sh"]⟩ false none = .failed "User 0 is not mapped" ∧
    (∃ evs, init_process_start ⟨1, 1, fun n => n == 0, fun n => n == 0⟩
        ⟨none, none, "", ["/bin/sh"]⟩ false none = .launched 0 0 "/" evs ∧
      eventBefore evs (ChildEvent.setUser 0 0) (ChildEvent.execv ["/bin/sh"])) := by
  constructor
  · exact ((start_defaults_to_root ⟨1, 1, fun n => n == 1000, fun n => n == 1000⟩
      ⟨none, none, "", ["/bin/sh"]⟩ false none none rfl rfl).1 (by decide)).1
  · refine ⟨init_child_events false "/" 0 0 ["/bin/sh"], rfl, ?_⟩
    exact ((start_defaults_to_root ⟨1, 1, fun n => n == 0, fun n => n == 0⟩
      ⟨none, none, "", ["/bin/sh"]⟩ false none none rfl rfl).2.2.1 0 0 "/"
      (init_child_events false "/" 0 0 ["/bin/sh"]) rfl).2.2

end Sbox
